import Mathlib

/-!
Verification development for the season-window resolution and statistical
aggregation engine of the `accurateshothelper` repository.

Dates are embedded as integer day numbers: `daysFromCivil y m d` is a strictly
monotone encoding of calendar dates (days-from-civil algorithm), so Python
`datetime` comparison and `timedelta` arithmetic correspond exactly to integer
comparison and addition/subtraction on the encoding.
-/

namespace AccurateShot

/-- Day count of a Gregorian calendar date (days-from-civil, epoch 0000-03-01).
All dates in the repository's season table are in years 2013–2025, so `Nat`
arithmetic suffices. -/
def daysFromCivil (y m d : Nat) : Nat :=
  let y' := if m ≤ 2 then y - 1 else y
  let era := y' / 400
  let yoe := y' - era * 400
  let mp := (m + 9) % 12
  let doy := (153 * mp + 2) / 5 + (d - 1)
  let doe := yoe * 365 + yoe / 4 - yoe / 100 + doy
  era * 146097 + doe

/-- A calendar date as an integer day number (the resolver subtracts lookback
spans, so `Int`). -/
def mkDate (y m d : Nat) : Int := (daysFromCivil y m d : Int)

/-- The three dates stored per season in `NHL_SEASONS`
(`season_utils.py`): `'start'`, `'regular_end'`, `'playoff_end'`. -/
structure SeasonDates where
  start : Int
  regular_end : Int
  playoff_end : Int
deriving Repr, DecidableEq

/-- The static season table `NHL_SEASONS` of `season_utils.py`, with the
date strings translated to day numbers.  The association list is written in
the source dict's insertion order, which is already descending by key, so
this list itself is `sorted(NHL_SEASONS.keys(), reverse=True)` order and its
reverse is ascending-key order. -/
def NHL_SEASONS : List (Nat × SeasonDates) :=
  [ (20242025, ⟨mkDate 2024 10 4,  mkDate 2025 4 18, mkDate 2025 6 30⟩),
    (20232024, ⟨mkDate 2023 10 10, mkDate 2024 4 18, mkDate 2024 6 24⟩),
    (20222023, ⟨mkDate 2022 10 7,  mkDate 2023 4 14, mkDate 2023 6 13⟩),
    (20212022, ⟨mkDate 2021 10 12, mkDate 2022 4 29, mkDate 2022 6 26⟩),
    (20202021, ⟨mkDate 2021 1 13,  mkDate 2021 5 19, mkDate 2021 7 7⟩),
    (20192020, ⟨mkDate 2019 10 2,  mkDate 2020 3 10, mkDate 2020 9 28⟩),
    (20182019, ⟨mkDate 2018 10 3,  mkDate 2019 4 6,  mkDate 2019 6 12⟩),
    (20172018, ⟨mkDate 2017 10 4,  mkDate 2018 4 8,  mkDate 2018 6 7⟩),
    (20162017, ⟨mkDate 2016 10 12, mkDate 2017 4 9,  mkDate 2017 6 11⟩),
    (20152016, ⟨mkDate 2015 10 7,  mkDate 2016 4 10, mkDate 2016 6 12⟩),
    (20142015, ⟨mkDate 2014 10 8,  mkDate 2015 4 12, mkDate 2015 6 15⟩),
    (20132014, ⟨mkDate 2013 10 1,  mkDate 2014 4 13, mkDate 2014 6 15⟩) ]

/-- `sorted(NHL_SEASONS.keys())` ascending iteration over the table. -/
def seasonsAsc : List (Nat × SeasonDates) := NHL_SEASONS.reverse

/-- Dictionary lookup `NHL_SEASONS[season]` / `season in NHL_SEASONS`. -/
def seasonLookup (s : Nat) : Option SeasonDates :=
  (NHL_SEASONS.find? (fun p => p.1 = s)).map (·.2)

/-- `get_season_end_date(season, stype)` of `season_utils.py`: `regular_end`
for `stype = 2`, `playoff_end` for `stype = 3`; `none` models the raised
`ValueError` (unknown season or invalid `stype`). -/
def get_season_end_date (season : Nat) (stype : Nat) : Option Int :=
  match seasonLookup season with
  | none => none
  | some sd =>
    if stype = 2 then some sd.regular_end
    else if stype = 3 then some sd.playoff_end
    else none

/-- `get_season_start_date(season)` of `season_utils.py`. -/
def get_season_start_date (season : Nat) : Option Int :=
  (seasonLookup season).map (·.start)

/-- `get_season_for_date(date_str)` of `season_utils.py`: iterate seasons in
descending key order, return the first whose `[start, playoff_end]` interval
contains the date; `none` models the raised `ValueError`. -/
def get_season_for_date (d : Int) : Option Nat :=
  (NHL_SEASONS.find? (fun p => decide (p.2.start ≤ d ∧ d ≤ p.2.playoff_end))).map (·.1)

/-- Table invariant used below: scanning entries pairwise, a season with the
smaller id ends (playoffs included) strictly before the larger id's season
starts. -/
theorem seasons_separated :
    ∀ p ∈ NHL_SEASONS, ∀ q ∈ NHL_SEASONS, p.1 < q.1 →
      p.2.playoff_end < q.2.start := by decide

/-- Table invariant: within each season, start < regular end < playoff end. -/
theorem season_dates_ordered :
    ∀ p ∈ NHL_SEASONS, p.2.start < p.2.regular_end ∧
      p.2.regular_end < p.2.playoff_end := by decide

theorem get_season_for_date_mem {d : Int} {s : Nat}
    (h : get_season_for_date d = some s) :
    ∃ sd, (s, sd) ∈ NHL_SEASONS ∧ sd.start ≤ d ∧ d ≤ sd.playoff_end := by
  unfold get_season_for_date at h
  cases hf : NHL_SEASONS.find?
      (fun p => decide (p.2.start ≤ d ∧ d ≤ p.2.playoff_end)) with
  | none => rw [hf] at h; exact Option.noConfusion h
  | some p =>
    rw [hf] at h
    have hps : p.1 = s := Option.some.inj h
    have hmem := List.mem_of_find?_eq_some hf
    have hp := List.find?_some hf
    simp only [decide_eq_true_eq] at hp
    exact ⟨p.2, by rw [← hps]; exact ⟨hmem, hp.1, hp.2⟩⟩

/-! ## Window resolution (`nst_on_ice_scraper`, `nst_scraper.py`)

Only the date/season-resolution part of the scraper is embedded (the HTTP
fetch and table parsing are out of scope).  The Python `startdate` parameter
defaults to the empty string `''`; an omitted/empty start date is modelled as
`none`.  A raised `ValueError` is modelled as `none` for the whole result. -/

/-- The resolved request window: the `fromseason`/`thruseason` ids and the
`fd`/`td` dates placed in the query URL. -/
structure ResolvedWindow where
  fromseason : Nat
  thruseason : Nat
  startdate : Option Int
  enddate : Int
deriving Repr, DecidableEq

/-- Resolution of `enddate`'s season in `nst_on_ice_scraper`: try
`get_season_for_date`; on failure scan seasons in ascending key order and
take the first whose start is after the date; else the scraper raises. -/
def resolve_end_season (enddate : Int) : Option Nat :=
  match get_season_for_date enddate with
  | some s => some s
  | none => (seasonsAsc.find? (fun p => decide (enddate < p.2.start))).map (·.1)

/-- The `last_n is not None` block of `nst_on_ice_scraper` (lines 67–94):
`days_since_season_start = enddate - season start`; if it is `< last_n` and
the previous season (`end_season - 10001`) is in the table,
`startdate := prev season end-by-stype - remaining` and
`start_season := prev`; if the previous season is absent,
`startdate := season start - last_n` and `start_season := end_season`;
otherwise `startdate := enddate - last_n` and `start_season := end_season`.
Returns the pair `(start_season, startdate)`. -/
def resolve_last_n (end_season : Nat) (enddate : Int) (n : Nat)
    (stype : Nat) : Option (Nat × Int) :=
  match seasonLookup end_season with
  | none => none
  | some esd =>
    let days_since := enddate - esd.start
    if days_since < (n : Int) then
      let prev := end_season - 10001
      match seasonLookup prev with
      | some _ =>
        (get_season_end_date prev stype).map
          (fun prev_end => (prev, prev_end - ((n : Int) - days_since)))
      | none => some (end_season, esd.start - (n : Int))
    else some (end_season, enddate - (n : Int))

/-- The explicit-`startdate` block of `nst_on_ice_scraper` (lines 99–113):
computes the pair `(start_season, startdate)`, possibly snapping the start
date. -/
def resolve_explicit_start (sd : Int) (stype : Nat) : Option (Nat × Int) :=
  match get_season_for_date sd with
  | some ss => some (ss, sd)
  | none =>
    match seasonsAsc.find? (fun p => decide (sd < p.2.start)) with
    | none => none
    | some p =>
      (get_season_end_date (p.1 - 10001) stype).map
        (fun e => (p.1 - 10001, e))

/-- The date/season-resolution logic of `nst_on_ice_scraper`
(`nst_scraper.py` lines 50–119), for calls that do not pass explicit
`fromseason`/`thruseason`: resolve `end_season`, compute
`(start_season, startdate)` through the `last_n` block, the explicit
start-date block, or the keep-empty branch, then
`fromseason = min start_season end_season` and
`thruseason = max start_season end_season`. -/
def nst_on_ice_resolve (startdate : Option Int) (enddate : Int)
    (last_n : Option Nat) (stype : Nat) : Option ResolvedWindow :=
  match resolve_end_season enddate with
  | none => none
  | some end_season =>
    match last_n with
    | some n =>
      (resolve_last_n end_season enddate n stype).map
        (fun r => ⟨min r.1 end_season, max r.1 end_season,
          some r.2, enddate⟩)
    | none =>
      match startdate with
      | none => some ⟨min end_season end_season, max end_season end_season,
          none, enddate⟩
      | some sd =>
        (resolve_explicit_start sd stype).map
          (fun r => ⟨min r.1 end_season, max r.1 end_season,
            some r.2, enddate⟩)

theorem seasonLookup_mem {s : Nat} {sd : SeasonDates}
    (h : seasonLookup s = some sd) : (s, sd) ∈ NHL_SEASONS := by
  unfold seasonLookup at h
  cases hf : NHL_SEASONS.find? (fun p => p.1 = s) with
  | none => rw [hf] at h; exact Option.noConfusion h
  | some p =>
    rw [hf] at h
    have hpv : p.2 = sd := Option.some.inj h
    have hmem := List.mem_of_find?_eq_some hf
    have hp := List.find?_some hf
    simp only [decide_eq_true_eq] at hp
    have : p = (s, sd) := by
      cases p; simp only at hp hpv; simp [hp, hpv]
    rwa [this] at hmem

theorem get_season_for_date_none {d : Int}
    (h : get_season_for_date d = none) :
    ∀ p ∈ NHL_SEASONS, ¬ (p.2.start ≤ d ∧ d ≤ p.2.playoff_end) := by
  unfold get_season_for_date at h
  rw [Option.map_eq_none'] at h
  intro p hp
  have := List.find?_eq_none.mp h p hp
  simpa using this

theorem season_end_le_playoff {s stype : Nat} {sd : SeasonDates} {e : Int}
    (hl : seasonLookup s = some sd)
    (he : get_season_end_date s stype = some e) : e ≤ sd.playoff_end := by
  unfold get_season_end_date at he
  rw [hl] at he
  replace he : (if stype = 2 then some sd.regular_end
      else if stype = 3 then some sd.playoff_end else none) = some e := he
  have hmem := seasonLookup_mem hl
  have hord := season_dates_ordered (s, sd) hmem
  by_cases h2 : stype = 2
  · rw [if_pos h2] at he
    have : e = sd.regular_end := (Option.some.inj he).symm
    simp only at hord
    omega
  · rw [if_neg h2] at he
    by_cases h3 : stype = 3
    · rw [if_pos h3] at he
      have : e = sd.playoff_end := (Option.some.inj he).symm
      omega
    · rw [if_neg h3] at he; exact Option.noConfusion he

/-- **C9** (confirmed).  Season resolution is monotone in the date: whenever
two dates both resolve through `get_season_for_date` over the static
`NHL_SEASONS` table, the earlier date's season id is at most the later
date's. -/
theorem season_for_date_monotone (d1 d2 : Int) (s1 s2 : Nat)
    (hlt : d1 < d2)
    (h1 : get_season_for_date d1 = some s1)
    (h2 : get_season_for_date d2 = some s2) : s1 ≤ s2 := by
  obtain ⟨sd1, hm1, hs1, he1⟩ := get_season_for_date_mem h1
  obtain ⟨sd2, hm2, hs2, he2⟩ := get_season_for_date_mem h2
  by_contra hgt
  push_neg at hgt
  have hsep := seasons_separated (s2, sd2) hm2 (s1, sd1) hm1 hgt
  simp only at hsep
  omega

/-- Witness for `season_for_date_monotone`: November 2023 resolves to season
20232024 and November 2024 to 20242025, and the theorem applies. -/
theorem season_for_date_monotone_witness :
    get_season_for_date (mkDate 2023 11 1) = some 20232024 ∧
    get_season_for_date (mkDate 2024 11 1) = some 20242025 ∧
    (20232024 : Nat) ≤ 20242025 := by
  refine ⟨by decide, by decide, ?_⟩
  exact season_for_date_monotone (mkDate 2023 11 1) (mkDate 2024 11 1)
    20232024 20242025 (by decide) (by decide) (by decide)

/-- **C10** (confirmed).  When `last_n` is provided, the caller-supplied
`startdate` has no influence on the resolved window: the `last_n` branch of
`nst_on_ice_scraper` recomputes the start date from `enddate`, `last_n` and
the season table in every sub-branch and never reads `startdate`. -/
theorem resolve_ignores_startdate_with_last_n
    (sd1 sd2 : Option Int) (ed : Int) (n : Nat) (stype : Nat) :
    nst_on_ice_resolve sd1 ed (some n) stype =
      nst_on_ice_resolve sd2 ed (some n) stype := by
  unfold nst_on_ice_resolve
  cases resolve_end_season ed <;> rfl

/-- **C3** counterexample.  With both `startdate` and `last_n` omitted and
`enddate` = 2024-11-01, the resolver returns the window with `startdate`
still empty (`none`), not equal to the supplied end date: the claim
`start_date == end_date` fails. -/
theorem resolve_empty_start_counterexample :
    nst_on_ice_resolve none (mkDate 2024 11 1) none 2 =
      some ⟨20242025, 20242025, none, mkDate 2024 11 1⟩ ∧
    (none : Option Int) ≠ some (mkDate 2024 11 1) := by decide

/-- **C3** (amended).  When both `startdate` and `last_n` are omitted, the
resolver collapses the *season range* to the end date's season
(`fromseason = thruseason = end_season`) but leaves the start date empty
(the `fd` query field stays blank); it does not set `start_date` to
`end_date`. -/
theorem resolve_empty_start (ed : Int) (stype S : Nat)
    (hend : resolve_end_season ed = some S) :
    nst_on_ice_resolve none ed none stype = some ⟨S, S, none, ed⟩ := by
  unfold nst_on_ice_resolve
  rw [hend]
  simp

/-- Witness for `resolve_empty_start` at `enddate` = 2024-11-01. -/
theorem resolve_empty_start_witness :
    nst_on_ice_resolve none (mkDate 2024 11 1) none 2 =
      some ⟨20242025, 20242025, none, mkDate 2024 11 1⟩ :=
  resolve_empty_start (mkDate 2024 11 1) 2 20242025 (by decide)

/-- **C4** counterexample.  For `startdate` = 2024-07-15 (an inter-season gap
date) and `enddate` = 2024-11-01 with `stype = 2`, the resolver replaces the
start date with season 20232024's regular-season end 2024-04-18, which is
*earlier* than the queried start date — the replacement is a snap backward,
not forward. -/
theorem gap_start_snap_counterexample :
    nst_on_ice_resolve (some (mkDate 2024 7 15)) (mkDate 2024 11 1) none 2 =
      some ⟨20232024, 20242025, some (mkDate 2024 4 18), mkDate 2024 11 1⟩ ∧
    ¬ (mkDate 2024 7 15 ≤ mkDate 2024 4 18) := by decide

/-- **C4** (amended).  With an explicit `startdate` in an inter-season gap
(no season interval contains it) and no `last_n`, the resolver takes the
first season (ascending) whose start exceeds `startdate`, assigns
`start_season` to that season's id minus 10001 (the previous season, not the
next season itself), and replaces `startdate` with that previous season's
end-date-by-`stype` — which snaps the start date *backward*: whenever that
previous season is configured and started on or before the queried date, the
replacement date is strictly earlier than the queried start date. -/
theorem gap_start_uses_previous_season
    (sd ed : Int) (stype S : Nat) (p : Nat × SeasonDates)
    (psd : SeasonDates) (e : Int)
    (hend : resolve_end_season ed = some S)
    (hgap : get_season_for_date sd = none)
    (hfind : seasonsAsc.find? (fun q => decide (sd < q.2.start)) = some p)
    (hprev : seasonLookup (p.1 - 10001) = some psd)
    (hpstart : psd.start ≤ sd)
    (hse : get_season_end_date (p.1 - 10001) stype = some e) :
    nst_on_ice_resolve (some sd) ed none stype =
      some ⟨min (p.1 - 10001) S, max (p.1 - 10001) S, some e, ed⟩ ∧
    e < sd := by
  constructor
  · have hx : resolve_explicit_start sd stype = some (p.1 - 10001, e) := by
      simp only [resolve_explicit_start, hgap, hfind, hse, Option.map_some']
    simp only [nst_on_ice_resolve, hend, hx, Option.map_some']
  · have hmem := seasonLookup_mem hprev
    have hnotin := get_season_for_date_none hgap (p.1 - 10001, psd) hmem
    simp only [not_and, not_le] at hnotin
    have hpe : e ≤ psd.playoff_end := season_end_le_playoff hprev hse
    have := hnotin hpstart
    omega

/-- Witness for `gap_start_uses_previous_season`: the gap date 2024-07-15. -/
theorem gap_start_uses_previous_season_witness :
    nst_on_ice_resolve (some (mkDate 2024 7 15)) (mkDate 2024 11 1) none 2 =
      some ⟨20232024, 20242025, some (mkDate 2024 4 18), mkDate 2024 11 1⟩ ∧
    mkDate 2024 4 18 < mkDate 2024 7 15 := by
  have h := gap_start_uses_previous_season (mkDate 2024 7 15)
    (mkDate 2024 11 1) 2 20242025
    (20242025, ⟨mkDate 2024 10 4, mkDate 2025 4 18, mkDate 2025 6 30⟩)
    ⟨mkDate 2023 10 10, mkDate 2024 4 18, mkDate 2024 6 24⟩
    (mkDate 2024 4 18)
    (by decide) (by decide) (by decide) (by decide) (by decide) (by decide)
  exact ⟨by simpa using h.1, h.2⟩

/-- **C2** counterexample.  Take `enddate` = 2024-10-05, one day after season
20242025's start (`k = 1`), with `last_n = 10000 > k` and `stype = 2`.  The
resolved start date equals the previous season's regular-season end
2024-04-18 minus `10000 - 1` days — a date strictly before the previous
season 20232024 even *starts* (2023-10-10), so the resolved start date does
not fall within the previous season. -/
theorem last_n_boundary_counterexample :
    mkDate 2024 10 5 = mkDate 2024 10 4 + 1 ∧
    nst_on_ice_resolve none (mkDate 2024 10 5) (some 10000) 2 =
      some ⟨20232024, 20242025, some (mkDate 2024 4 18 - 9999),
        mkDate 2024 10 5⟩ ∧
    mkDate 2024 4 18 - 9999 < mkDate 2023 10 10 := by decide

/-- **C2** (amended).  For a request with lookback `last_n` whose `enddate`
resolves to season `S`: if `enddate` is at least `last_n` days after `S`'s
start, the resolved start date is `enddate - last_n`, the season range stays
`(S, S)`, and the start date is on or after `S`'s start; otherwise, when the
previous season `S - 10001` is in the table (and `stype` is valid), the
resolved start date equals that previous season's end-date-by-`stype` minus
`last_n - days_since_season_start`, with season range
`(S - 10001, S)` — and that start date falls within the previous season
provided the remaining lookback does not exceed the span from the previous
season's start to its chosen end date. -/
theorem last_n_boundary (sd0 : Option Int) (ed : Int) (n stype S : Nat)
    (esd : SeasonDates)
    (hend : resolve_end_season ed = some S)
    (hlook : seasonLookup S = some esd) :
    ((n : Int) ≤ ed - esd.start →
      nst_on_ice_resolve sd0 ed (some n) stype =
        some ⟨S, S, some (ed - (n : Int)), ed⟩ ∧
      esd.start ≤ ed - (n : Int)) ∧
    (ed - esd.start < (n : Int) →
      ∀ psd pe, seasonLookup (S - 10001) = some psd →
        get_season_end_date (S - 10001) stype = some pe →
        nst_on_ice_resolve sd0 ed (some n) stype =
          some ⟨min (S - 10001) S, max (S - 10001) S,
            some (pe - ((n : Int) - (ed - esd.start))), ed⟩ ∧
        ((n : Int) - (ed - esd.start) ≤ pe - psd.start →
          psd.start ≤ pe - ((n : Int) - (ed - esd.start)) ∧
          pe - ((n : Int) - (ed - esd.start)) ≤ psd.playoff_end)) := by
  constructor
  · intro hge
    have hr : resolve_last_n S ed n stype = some (S, ed - (n : Int)) := by
      unfold resolve_last_n
      split
      · next heq => rw [hlook] at heq; exact Option.noConfusion heq
      · next esd' heq =>
        rw [hlook] at heq
        obtain rfl : esd = esd' := Option.some.inj heq
        rw [if_neg (by omega)]
    refine ⟨?_, by omega⟩
    simp only [nst_on_ice_resolve, hend, hr, Option.map_some', min_self,
      max_self]
  · intro hlt psd pe hpsd hpe
    have hr : resolve_last_n S ed n stype =
        some (S - 10001, pe - ((n : Int) - (ed - esd.start))) := by
      unfold resolve_last_n
      split
      · next heq => rw [hlook] at heq; exact Option.noConfusion heq
      · next esd' heq =>
        rw [hlook] at heq
        obtain rfl : esd = esd' := Option.some.inj heq
        rw [if_pos (by omega)]
        simp only [hpsd, hpe, Option.map_some']
    refine ⟨?_, ?_⟩
    · simp only [nst_on_ice_resolve, hend, hr, Option.map_some']
    · intro hrem
      have hpe' : pe ≤ psd.playoff_end := season_end_le_playoff hpsd hpe
      omega

/-- Witness for `last_n_boundary`: `enddate` = 2024-12-01 with `last_n = 7`
stays within season 20242025; `enddate` = 2024-10-05 (one day into 20242025)
with `last_n = 7` reaches back to 2024-04-18 − 6 in season 20232024. -/
theorem last_n_boundary_witness :
    nst_on_ice_resolve none (mkDate 2024 12 1) (some 7) 2 =
      some ⟨20242025, 20242025, some (mkDate 2024 12 1 - 7),
        mkDate 2024 12 1⟩ ∧
    nst_on_ice_resolve none (mkDate 2024 10 5) (some 7) 2 =
      some ⟨min (20242025 - 10001) 20242025, max (20242025 - 10001) 20242025,
        some (mkDate 2024 4 18 - 6), mkDate 2024 10 5⟩ := by
  constructor
  · have h1 := last_n_boundary none (mkDate 2024 12 1) 7 2 20242025
      ⟨mkDate 2024 10 4, mkDate 2025 4 18, mkDate 2025 6 30⟩
      (by decide) (by decide)
    exact (h1.1 (by decide)).1
  · have h2 := last_n_boundary none (mkDate 2024 10 5) 7 2 20242025
      ⟨mkDate 2024 10 4, mkDate 2025 4 18, mkDate 2025 6 30⟩
      (by decide) (by decide)
    have h3 := h2.2 (by decide)
      ⟨mkDate 2023 10 10, mkDate 2024 4 18, mkDate 2024 6 24⟩
      (mkDate 2024 4 18) (by decide) (by decide)
    exact h3.1

/-! ## Statistical aggregation (`nst_db_utils.py`)

`get_team_stats` (lines 852–997) builds, for each team partition (the last-N
games of one team), SQL aggregation expressions: `COUNT(DISTINCT date)` for
games played, `SUM` for counting columns, and for the enumerated percentage
columns a recomputation from summed components guarded by
`CASE WHEN <denominator sum> > 0 ... ELSE NULL`, rounded to 3 decimals.
The embedding below gives one Lean function per aggregation expression the
claims mention, applied to the list of rows of one partition.  Numeric
values are rationals; `ROUND(x, 3)` is PostgreSQL numeric rounding
(half away from zero) at 3 decimal places. -/

/-- Round a rational to an integer, halves away from zero (PostgreSQL
`ROUND` on `numeric`). -/
def roundHalfAwayFromZero (q : ℚ) : ℤ :=
  if 0 ≤ q then ⌊q + 1/2⌋ else -⌊-q + 1/2⌋

/-- `ROUND(q, 3)`. -/
def round3 (q : ℚ) : ℚ := (roundHalfAwayFromZero (q * 1000) : ℚ) / 1000

/-- One per-game row of a `team_stats_*` table, restricted to the columns
the aggregation claims are about: goals/shots/corsi for and against, and the
stored per-game shooting percentage column. -/
structure TeamStatRow where
  team : String
  date : Int
  gf : ℚ
  ga : ℚ
  sf : ℚ
  sa : ℚ
  cf : ℚ
  ca : ℚ
  sh_pct : ℚ
deriving Repr, DecidableEq

def sumBy (f : TeamStatRow → ℚ) (rows : List TeamStatRow) : ℚ :=
  (rows.map f).sum

/-- `COUNT(DISTINCT date) as gp` over one partition. -/
def team_agg_gp (rows : List TeamStatRow) : Nat :=
  ((rows.map (·.date)).dedup).length

/-- `ROUND(CASE WHEN SUM(sf) > 0 THEN (SUM(gf) * 100.0 / SUM(sf)) ELSE NULL
END, 3) as sh_pct`. -/
def team_agg_sh_pct (rows : List TeamStatRow) : Option ℚ :=
  if 0 < sumBy (·.sf) rows then
    some (round3 (sumBy (·.gf) rows * 100 / sumBy (·.sf) rows))
  else none

/-- `ROUND(CASE WHEN SUM(sa) > 0 THEN ((SUM(sa) - SUM(ga)) * 100.0 /
SUM(sa)) ELSE NULL END, 3) as sv_pct`. -/
def team_agg_sv_pct (rows : List TeamStatRow) : Option ℚ :=
  if 0 < sumBy (·.sa) rows then
    some (round3 ((sumBy (·.sa) rows - sumBy (·.ga) rows) * 100 /
      sumBy (·.sa) rows))
  else none

/-- `ROUND(CASE WHEN SUM(cf + ca) > 0 THEN (SUM(cf) * 100.0 / SUM(cf + ca))
ELSE NULL END, 3) as cf_pct`. -/
def team_agg_cf_pct (rows : List TeamStatRow) : Option ℚ :=
  if 0 < sumBy (fun r => r.cf + r.ca) rows then
    some (round3 (sumBy (·.cf) rows * 100 /
      sumBy (fun r => r.cf + r.ca) rows))
  else none

/-- The claim's two synthetic games for one team: game A with 10 shots and
1 goal (per-game shooting percentage 10), game B with 20 shots and 1 goal
(per-game shooting percentage 5). -/
def twoGameExample : List TeamStatRow :=
  [ ⟨"TOR", 0, 1, 0, 10, 0, 0, 0, 10⟩,
    ⟨"TOR", 1, 1, 0, 20, 0, 0, 0, 5⟩ ]

/-- One per-game row for the high-danger save-percentage columns of a
`team_stats_*` table: the summed components `hdsa`/`hdga` and the stored
per-game `hdsv_pct`. -/
structure TeamStatRowHD where
  team : String
  date : Int
  hdsa : ℚ
  hdga : ℚ
  hdsv_pct : ℚ
deriving Repr, DecidableEq

/-- `hdsv_pct` is in the percentage-column list of `get_team_stats` (lines
882–887) but has no dedicated `CASE WHEN` expression, so it falls through
to the default `ROUND(AVG(hdsv_pct), 3) as hdsv_pct` (lines 930–932) — the
arithmetic mean of the per-game percentages.  The same fall-through applies
to `scsh_pct, scsv_pct, hdsh_pct, mdsh_pct, mdsv_pct, ldsh_pct, ldsv_pct`
and `point_pct`. -/
def team_agg_hdsv_pct (rows : List TeamStatRowHD) : ℚ :=
  round3 ((rows.map (·.hdsv_pct)).sum / rows.length)

/-- Two games of one team: 10 high-danger shots against with 1 goal
(per-game `hdsv_pct` 90) and 30 high-danger shots against with 6 goals
(per-game `hdsv_pct` 80). -/
def hdExample : List TeamStatRowHD :=
  [ ⟨"TOR", 0, 10, 1, 90⟩,
    ⟨"TOR", 1, 30, 6, 80⟩ ]

/-- **C1** counterexample.  The high-danger save percentage is a
ratio-type output of the same `get_team_stats` per-team aggregation, but
falls through to `ROUND(AVG(hdsv_pct), 3)`: on two games with 10
high-danger shots against (1 goal) and 30 high-danger shots against
(6 goals), the aggregate reports the arithmetic mean 85 of the per-game
percentages, not the summed recomputation
`(40 - 7) * 100 / 40 = 82.5` the claim demands for every ratio-type
output. -/
theorem team_ratio_mean_counterexample :
    team_agg_hdsv_pct hdExample = 85 ∧
    round3 (((hdExample.map (·.hdsa)).sum - (hdExample.map (·.hdga)).sum) *
      100 / (hdExample.map (·.hdsa)).sum) = 165/2 ∧
    (85 : ℚ) ≠ 165/2 := by
  refine ⟨?_, ?_, by norm_num⟩ <;>
    norm_num [team_agg_hdsv_pct, hdExample, round3, roundHalfAwayFromZero]

/-- **C1** (amended).  The percentage columns of `get_team_stats` with a
dedicated `CASE WHEN` expression (embedded here: `sh_pct`, `sv_pct`,
`cf_pct`) are recomputed as the 3-decimal-rounded quotient `100 * summed
numerator / summed denominator` and are `NULL` whenever the summed
denominator is not positive; on the claim's two synthetic games the
aggregated shooting percentage is `round3 (100 * 2 / 30) = 6.667`, not the
arithmetic mean `7.5` of the per-game percentages.  The percentage columns
without a dedicated expression (`scsh_pct, scsv_pct, hdsh_pct, hdsv_pct,
mdsh_pct, mdsv_pct, ldsh_pct, ldsv_pct, point_pct`) are instead aggregated
as `ROUND(AVG(col), 3)` — the arithmetic mean of the per-game percentages,
which differs from the summed recomputation (shown for `hdsv_pct`). -/
theorem ratio_recompute_not_mean :
    (∀ rows : List TeamStatRow,
      (0 < sumBy (·.sf) rows →
        team_agg_sh_pct rows =
          some (round3 (sumBy (·.gf) rows * 100 / sumBy (·.sf) rows))) ∧
      (¬ 0 < sumBy (·.sf) rows → team_agg_sh_pct rows = none) ∧
      (0 < sumBy (·.sa) rows →
        team_agg_sv_pct rows =
          some (round3 ((sumBy (·.sa) rows - sumBy (·.ga) rows) * 100 /
            sumBy (·.sa) rows))) ∧
      (¬ 0 < sumBy (·.sa) rows → team_agg_sv_pct rows = none) ∧
      (0 < sumBy (fun r => r.cf + r.ca) rows →
        team_agg_cf_pct rows =
          some (round3 (sumBy (·.cf) rows * 100 /
            sumBy (fun r => r.cf + r.ca) rows))) ∧
      (¬ 0 < sumBy (fun r => r.cf + r.ca) rows →
        team_agg_cf_pct rows = none)) ∧
    team_agg_sh_pct twoGameExample = some (6667/1000) ∧
    round3 (2 * 100 / 30) = 6667/1000 ∧
    ((twoGameExample.map (·.sh_pct)).sum / 2 = 15/2 ∧
      (6667/1000 : ℚ) ≠ 15/2) ∧
    team_agg_hdsv_pct hdExample =
      round3 ((hdExample.map (·.hdsv_pct)).sum / hdExample.length) ∧
    team_agg_hdsv_pct hdExample ≠
      round3 (((hdExample.map (·.hdsa)).sum -
        (hdExample.map (·.hdga)).sum) * 100 /
          (hdExample.map (·.hdsa)).sum) := by
  refine ⟨fun rows => ?_,
    by norm_num [team_agg_sh_pct, sumBy, twoGameExample, round3,
      roundHalfAwayFromZero],
    by norm_num [round3, roundHalfAwayFromZero],
    by norm_num [twoGameExample],
    rfl,
    by norm_num [team_agg_hdsv_pct, hdExample, round3,
      roundHalfAwayFromZero]⟩
  exact ⟨fun h => by rw [team_agg_sh_pct, if_pos h],
    fun h => by rw [team_agg_sh_pct, if_neg h],
    fun h => by rw [team_agg_sv_pct, if_pos h],
    fun h => by rw [team_agg_sv_pct, if_neg h],
    fun h => by rw [team_agg_cf_pct, if_pos h],
    fun h => by rw [team_agg_cf_pct, if_neg h]⟩

/-- Witness for `ratio_recompute_not_mean`: the positive- and
zero-denominator cases instantiated on the two-game example and on a
shotless row. -/
theorem ratio_recompute_not_mean_witness :
    team_agg_sh_pct twoGameExample =
      some (round3 (sumBy (·.gf) twoGameExample * 100 /
        sumBy (·.sf) twoGameExample)) ∧
    team_agg_sh_pct [⟨"TOR", 0, 0, 0, 0, 0, 0, 0, 0⟩] = none := by
  constructor
  · exact (ratio_recompute_not_mean.1 twoGameExample).1
      (by norm_num [sumBy, twoGameExample])
  · exact (ratio_recompute_not_mean.1
      [⟨"TOR", 0, 0, 0, 0, 0, 0, 0, 0⟩]).2.1 (by norm_num [sumBy])

/-! ## Goalie rolling stats and comparison (`nst_db_utils.py`) -/

/-- One per-game row of a `goalie_stats_*` table, restricted to the columns
the rolling/comparison queries touch. -/
structure GoalieStatRow where
  player : String
  date : Int
  shots_against : ℚ
  saves : ℚ
  goals_against : ℚ
  sv_pct : ℚ
  hdsv_pct : ℚ
  mdsv_pct : ℚ
  ldsv_pct : ℚ
  hd_shots_against : ℚ
  md_shots_against : ℚ
  ld_shots_against : ℚ
  gsaa : ℚ
deriving Repr, DecidableEq

/-- SQL `AVG` over a list of values of one group. -/
def avgBy (f : GoalieStatRow → ℚ) (rows : List GoalieStatRow) : ℚ :=
  (rows.map f).sum / rows.length

/-- The output row of `get_goalie_rolling_stats`: one `AVG` per column
listed in its query. -/
structure GoalieRollingRow where
  player : String
  avg_sv_pct : ℚ
  avg_hd_sv_pct : ℚ
  avg_md_sv_pct : ℚ
  avg_ld_sv_pct : ℚ
  avg_hd_shots : ℚ
  avg_md_shots : ℚ
  avg_ld_shots : ℚ
  avg_gsaa : ℚ
deriving Repr, DecidableEq

/-- The `recent_games` CTE of `get_goalie_rolling_stats`
(`nst_db_utils.py` lines 304–312): rows of one player at-or-before the
given date, ordered by date descending (ties in unspecified order), limited
to `n` rows. -/
def recent_games (rows : List GoalieStatRow) (p : String) (d : Int)
    (n : Nat) : List GoalieStatRow :=
  (((rows.filter (fun r => r.player = p ∧ r.date ≤ d)).insertionSort
    (fun a b => b.date ≤ a.date)).take n)

/-- `get_goalie_rolling_stats` (lines 285–348): `AVG` of each listed column
over the `recent_games` window, grouped by player (`none` when the window
is empty and the `GROUP BY` produces no row). -/
def get_goalie_rolling_stats (rows : List GoalieStatRow) (p : String)
    (d : Int) (n : Nat) : Option GoalieRollingRow :=
  let w := recent_games rows p d n
  if w.isEmpty then none
  else some ⟨p, avgBy (·.sv_pct) w, avgBy (·.hdsv_pct) w,
    avgBy (·.mdsv_pct) w, avgBy (·.ldsv_pct) w,
    avgBy (·.hd_shots_against) w, avgBy (·.md_shots_against) w,
    avgBy (·.ld_shots_against) w, avgBy (·.gsaa) w⟩

/-- The output row of `get_goalie_comparison`'s grouped query. -/
structure GoalieComparisonRow where
  player : String
  games_played : Nat
  avg_sv_pct : ℚ
deriving Repr, DecidableEq

/-- The grouped aggregation of `get_goalie_comparison`
(`nst_db_utils.py` lines 369–391): group all rows at-or-before the date by
player, computing `COUNT(*) as games_played` and `AVG(sv_pct)` (the further
`AVG` columns aggregate identically), keep groups with
`COUNT(*) >= min_games`, order by `avg_sv_pct` descending and keep the
first `n_games` groups. -/
def get_goalie_comparison (rows : List GoalieStatRow) (d : Int)
    (min_games n_games : Nat) : List GoalieComparisonRow :=
  let pool := rows.filter (fun r => r.date ≤ d)
  let players := pool.foldl
    (fun acc r => if r.player ∈ acc then acc else acc ++ [r.player]) []
  let groups := players.map (fun p =>
    let g := pool.filter (fun r => r.player = p)
    (⟨p, g.length, avgBy (·.sv_pct) g⟩ : GoalieComparisonRow))
  let kept := groups.filter (fun g => min_games ≤ g.games_played)
  ((kept.insertionSort (fun a b => b.avg_sv_pct ≤ a.avg_sv_pct)).take
    n_games)

/-- Two rows of one goalie on the same date (an upstream duplicate). -/
def dupRow : GoalieStatRow := ⟨"John Doe", 5, 10, 9, 1, 90, 0, 0, 0, 0, 0, 0, 0⟩

/-- **C6** counterexample.  The goalie-comparison aggregation counts raw
rows (`COUNT(*)`), not distinct dates: on two identical rows for the same
`(player, date)` it reports `games_played = 2`, where the claim demands 1
for every aggregation partition. -/
theorem games_played_counterexample :
    get_goalie_comparison [dupRow, dupRow] 10 1 5 =
      [⟨"John Doe", 2, 90⟩] ∧ (2 : Nat) ≠ 1 := by
  constructor
  · norm_num [get_goalie_comparison, dupRow, avgBy, List.insertionSort,
      List.orderedInsert]
  · decide

/-- **C6** (amended).  The *team* aggregation's games-played
(`COUNT(DISTINCT date)` in `get_team_stats`) does de-duplicate: appending a
row whose date already occurs in the partition leaves `gp` unchanged, and
two same-date rows yield `gp = 1`; the goalie-comparison aggregation
(`get_goalie_comparison`), by contrast, counts raw rows. -/
theorem games_played_distinct_dates :
    (∀ (rows : List TeamStatRow) (r : TeamStatRow),
      r.date ∈ rows.map (·.date) →
        team_agg_gp (r :: rows) = team_agg_gp rows) ∧
    team_agg_gp [⟨"TOR", 0, 1, 0, 10, 0, 0, 0, 10⟩,
      ⟨"TOR", 0, 1, 0, 20, 0, 0, 0, 5⟩] = 1 := by
  constructor
  · intro rows r hmem
    simp only [team_agg_gp, List.map_cons]
    rw [List.dedup_cons_of_mem hmem]
  · norm_num [team_agg_gp, List.dedup_cons_of_mem, List.dedup_cons_of_not_mem]

/-- Witness for `games_played_distinct_dates`: the duplicate-date instance
of the universal part. -/
theorem games_played_distinct_dates_witness :
    team_agg_gp [⟨"TOR", 0, 1, 0, 10, 0, 0, 0, 10⟩,
      ⟨"TOR", 0, 1, 0, 20, 0, 0, 0, 5⟩] =
      team_agg_gp [⟨"TOR", 0, 1, 0, 20, 0, 0, 0, 5⟩] :=
  games_played_distinct_dates.1 [⟨"TOR", 0, 1, 0, 20, 0, 0, 0, 5⟩]
    ⟨"TOR", 0, 1, 0, 10, 0, 0, 0, 10⟩ (by norm_num)

/-- Two games of one goalie: 10 shots against with 9 saves (per-game save
percentage 90) and 30 shots against with 24 saves (per-game save
percentage 80). -/
def rollingEx : List GoalieStatRow :=
  [ ⟨"G", 1, 10, 9, 1, 90, 0, 0, 0, 0, 0, 0, 0⟩,
    ⟨"G", 2, 30, 24, 6, 80, 0, 0, 0, 0, 0, 0, 0⟩ ]

/-- **C5** counterexample.  The rolling window reports
`avg_sv_pct = (90 + 80)/2 = 85`, the arithmetic mean of the per-game save
percentages; recomputing from the summed components as the main aggregate
does (`(sum(sa) - sum(ga)) * 100 / sum(sa)`) gives `33 * 100 / 40 = 82.5`.
The rolling mode therefore does not apply the ratio-recomputation rule. -/
theorem rolling_avg_counterexample :
    (get_goalie_rolling_stats rollingEx "G" 10 5).map (·.avg_sv_pct) =
      some 85 ∧
    ((rollingEx.map (·.shots_against)).sum -
        (rollingEx.map (·.goals_against)).sum) * 100 /
      (rollingEx.map (·.shots_against)).sum = 165/2 ∧
    (85 : ℚ) ≠ 165/2 := by
  refine ⟨?_, by norm_num [rollingEx], by norm_num⟩
  norm_num [get_goalie_rolling_stats, recent_games, rollingEx, avgBy,
    List.insertionSort, List.orderedInsert]

/-- **C5** (amended).  The rolling-window mode does restrict to at most
`n_games` rows of the single requested entity at-or-before the date, but it
then takes plain arithmetic means of every column — its `avg_sv_pct` is the
mean of the per-game `sv_pct` values of the window, not a ratio recomputed
from summed numerator/denominator components. -/
theorem rolling_is_plain_average :
    (∀ (rows : List GoalieStatRow) (p : String) (d : Int) (n : Nat)
      (r : GoalieStatRow), r ∈ recent_games rows p d n →
        r.player = p ∧ r.date ≤ d) ∧
    (∀ (rows : List GoalieStatRow) (p : String) (d : Int) (n : Nat),
      (recent_games rows p d n).length ≤ n) ∧
    (∀ (rows : List GoalieStatRow) (p : String) (d : Int) (n : Nat)
      (g : GoalieRollingRow), get_goalie_rolling_stats rows p d n = some g →
        g.player = p ∧
        g.avg_sv_pct = avgBy (·.sv_pct) (recent_games rows p d n)) := by
  refine ⟨?_, ?_, ?_⟩
  · intro rows p d n r hr
    have h1 : r ∈ (rows.filter
        (fun r => r.player = p ∧ r.date ≤ d)).insertionSort
        (fun a b => b.date ≤ a.date) := List.mem_of_mem_take hr
    have h2 := (List.perm_insertionSort
      (fun a b : GoalieStatRow => b.date ≤ a.date) _).mem_iff.mp h1
    have h3 := List.of_mem_filter h2
    simpa using h3
  · intro rows p d n
    rw [recent_games, List.length_take]
    exact min_le_left _ _
  · intro rows p d n g hg
    rw [get_goalie_rolling_stats] at hg
    by_cases he : (recent_games rows p d n).isEmpty
    · rw [if_pos he] at hg; exact Option.noConfusion hg
    · rw [if_neg he] at hg
      obtain rfl := (Option.some.inj hg).symm
      exact ⟨rfl, rfl⟩

/-- Witness for `rolling_is_plain_average` on the two-game example. -/
theorem rolling_is_plain_average_witness :
    (⟨"G", 85, 0, 0, 0, 0, 0, 0, 0⟩ : GoalieRollingRow).player = "G" ∧
    (⟨"G", 85, 0, 0, 0, 0, 0, 0, 0⟩ : GoalieRollingRow).avg_sv_pct =
      avgBy (·.sv_pct) (recent_games rollingEx "G" 10 5) :=
  rolling_is_plain_average.2.2 rollingEx "G" 10 5
    ⟨"G", 85, 0, 0, 0, 0, 0, 0, 0⟩
    (by norm_num [get_goalie_rolling_stats, recent_games, rollingEx, avgBy,
      List.insertionSort, List.orderedInsert])

/-! ## Odds conversions (`wager_utils.py`) -/

/-- The runtime errors the two conversion functions can raise: the
interpreter's division-by-zero error, or an explicitly raised `ValueError`
with its message. -/
inductive OddsErr where
  | zeroDivisionError
  | valueError (msg : String)
deriving DecidableEq, Repr

/-- `american_to_decimal` of `wager_utils.py`: `1 + a/100` for `a > 0`,
otherwise `1 + 100/abs(a)` — which raises `ZeroDivisionError` when
`abs(a) = 0`, as there is no zero check. -/
def american_to_decimal (a : ℚ) : Except OddsErr ℚ :=
  if a > 0 then .ok (1 + a / 100)
  else if |a| = 0 then .error .zeroDivisionError
  else .ok (1 + 100 / |a|)

/-- `decimal_to_probability` of `wager_utils.py`: raises
`ValueError("Decimal odds must be positive.")` for `d <= 0`, else `1/d`. -/
def decimal_to_probability (d : ℚ) : Except OddsErr ℚ :=
  if d ≤ 0 then .error (.valueError "Decimal odds must be positive.")
  else .ok (1 / d)

/-- **C8** counterexample.  At input `0` the two functions do not fail with
a shared typed `InvalidOddsError`: `american_to_decimal(0)` crashes with the
interpreter's `ZeroDivisionError` (the unchecked `100/abs(0)`), while
`decimal_to_probability(0)` raises `ValueError`; these are different
errors, and no `InvalidOddsError` type exists in the code. -/
theorem invalid_odds_counterexample :
    american_to_decimal 0 = .error .zeroDivisionError ∧
    decimal_to_probability 0 =
      .error (.valueError "Decimal odds must be positive.") ∧
    OddsErr.zeroDivisionError ≠
      OddsErr.valueError "Decimal odds must be positive." := by
  refine ⟨?_, ?_, by decide⟩
  · norm_num [american_to_decimal]
  · norm_num [decimal_to_probability]

/-- **C8** (amended).  `american_to_decimal(0)` fails with the untyped
`ZeroDivisionError` from `100/abs(0)` and `decimal_to_probability(0)`
raises `ValueError` (there is no `InvalidOddsError`); for all other inputs
the formulas hold: `1 + a/100` for positive American odds, `1 + 100/|a|`
for negative ones, and `1/d` for positive decimal odds. -/
theorem odds_conversion_formulas :
    (∀ a : ℚ, 0 < a → american_to_decimal a = .ok (1 + a / 100)) ∧
    (∀ a : ℚ, a < 0 → american_to_decimal a = .ok (1 + 100 / |a|)) ∧
    american_to_decimal 0 = .error .zeroDivisionError ∧
    (∀ d : ℚ, 0 < d → decimal_to_probability d = .ok (1 / d)) ∧
    decimal_to_probability 0 =
      .error (.valueError "Decimal odds must be positive.") := by
  refine ⟨?_, ?_, by norm_num [american_to_decimal], ?_,
    by norm_num [decimal_to_probability]⟩
  · intro a ha
    rw [american_to_decimal, if_pos ha]
  · intro a ha
    rw [american_to_decimal, if_neg (by linarith),
      if_neg (by simp [abs_eq_zero]; linarith)]
  · intro d hd
    rw [decimal_to_probability, if_neg (by linarith)]

/-- Witness for `odds_conversion_formulas` at `+150`, `-110` and `2.0`. -/
theorem odds_conversion_formulas_witness :
    american_to_decimal 150 = .ok (1 + 150 / 100) ∧
    american_to_decimal (-110) = .ok (1 + 100 / |(-110 : ℚ)|) ∧
    decimal_to_probability 2 = .ok (1 / 2) :=
  ⟨odds_conversion_formulas.1 150 (by norm_num),
   odds_conversion_formulas.2.1 (-110) (by norm_num),
   odds_conversion_formulas.2.2.2.1 2 (by norm_num)⟩

/-! ## Near-even line selection (`prop_odds_db_utils.py`,
`filter_odds_closest_to_100`)

Python dicts are embedded as association lists in key-insertion order:
inserting an existing key overwrites the stored value in place, a new key
is appended.  `str.lower()` is `pyLower` (ASCII lowercase, which is what
the side labels use).  A `KeyError` from a side label other than
over/under is modelled as `none` for the whole call. -/

/-- ASCII `str.lower()`. -/
def pyLower (s : String) : String := String.mk (s.data.map Char.toLower)

/-- One odds quote, with the fields the function reads. -/
structure OddQuote where
  game_id : Nat
  sportsbook : String
  player : String
  ou : String
  handicap : ℚ
  timestamp : Int
deriving Repr, DecidableEq

/-- The de-duplication key of the first pass:
`(game_id, sportsbook, player, ou, handicap)`. -/
def oddKey (o : OddQuote) : Nat × String × String × String × ℚ :=
  (o.game_id, o.sportsbook, o.player, o.ou, o.handicap)

/-- One step of the first pass: keep the stored quote per unique key unless
the incoming quote's timestamp is strictly more recent; first occurrence of
a key is appended (dict insertion order). -/
def insertMostRecent (acc : List ((Nat × String × String × String × ℚ) × OddQuote))
    (o : OddQuote) : List ((Nat × String × String × String × ℚ) × OddQuote) :=
  if acc.any (fun kv => kv.1 = oddKey o) then
    acc.map (fun kv =>
      if kv.1 = oddKey o ∧ kv.2.timestamp < o.timestamp then (kv.1, o)
      else kv)
  else acc ++ [(oddKey o, o)]

/-- The `most_recent_odds` dict of `filter_odds_closest_to_100` (lines
775–787), iterated in key-insertion order. -/
def most_recent_odds (odds_dict : List (String × List OddQuote)) :
    List OddQuote :=
  (((odds_dict.map (·.2)).flatten).foldl insertMostRecent []).map (·.2)

/-- Assignment `d[h] = o` on a handicap-keyed dict. -/
def dictSet (acc : List (ℚ × OddQuote)) (h : ℚ) (o : OddQuote) :
    List (ℚ × OddQuote) :=
  if acc.any (fun kv => kv.1 = h) then
    acc.map (fun kv => if kv.1 = h then (kv.1, o) else kv)
  else acc ++ [(h, o)]

/-- Build one sportsbook's `{'over': {...}, 'under': {...}}` bucket from its
quotes in iteration order (lines 789–803); a side label other than
over/under would raise `KeyError`. -/
def buildSides (l : List OddQuote) :
    Option (List (ℚ × OddQuote) × List (ℚ × OddQuote)) :=
  l.foldl (fun acc o =>
    match acc with
    | none => none
    | some (ov, un) =>
      if pyLower o.ou = "over" then some (dictSet ov o.handicap o, un)
      else if pyLower o.ou = "under" then some (ov, dictSet un o.handicap o)
      else none) (some ([], []))

/-- Sportsbooks in order of first appearance (dict key order of
`by_sportsbook`). -/
def sportsbooks (l : List OddQuote) : List String :=
  l.foldl (fun acc o =>
    if o.sportsbook ∈ acc then acc else acc ++ [o.sportsbook]) []

/-- Dict read `d[h]` / `h in d`. -/
def lookupD (l : List (ℚ × OddQuote)) (h : ℚ) : Option OddQuote :=
  (l.find? (fun kv => kv.1 = h)).map (·.2)

/-- One step of Python `max(..., key=timestamp)`: replace the current
maximum only on a strictly greater timestamp (so the first maximum wins on
ties). -/
def maxStep (acc : Option (ℚ × Int)) (e : ℚ × Int) : Option (ℚ × Int) :=
  match acc with
  | none => some e
  | some b => if b.2 < e.2 then some e else some b

/-- `max(all_entries, key=timestamp)` (`none` on an empty list, where the
Python code skips the sportsbook). -/
def maxByTs (l : List (ℚ × Int)) : Option (ℚ × Int) := l.foldl maxStep none

/-- Per-sportsbook selection (lines 807–836): if the over and under
handicap sets intersect, return the over and the under quote at the first
common handicap; otherwise find the handicap with the most recent timestamp
across both sides and return whichever side quotes exist there. -/
def processBook (ov un : List (ℚ × OddQuote)) : List OddQuote :=
  match (ov.map (·.1)).filter (fun h => (un.map (·.1)).contains h) with
  | h :: _ => (lookupD ov h).toList ++ (lookupD un h).toList
  | [] =>
    match maxByTs (ov.map (fun kv => (kv.1, kv.2.timestamp)) ++
        un.map (fun kv => (kv.1, kv.2.timestamp))) with
    | none => []
    | some e => (lookupD ov e.1).toList ++ (lookupD un e.1).toList

/-- `filter_odds_closest_to_100` (lines 763–838): reduce to the most recent
quote per unique key, bucket by sportsbook and side, and concatenate each
sportsbook's selection. -/
def filter_odds_closest_to_100 (odds_dict : List (String × List OddQuote)) :
    Option (List OddQuote) :=
  let mr := most_recent_odds odds_dict
  (sportsbooks mr).foldl (fun acc sb =>
    match acc with
    | none => none
    | some out =>
      match buildSides (mr.filter (fun o => o.sportsbook = sb)) with
      | none => none
      | some (ov, un) => some (out ++ processBook ov un)) (some [])

theorem lookupD_mem {l : List (ℚ × OddQuote)} {h : ℚ}
    (hm : h ∈ l.map (·.1)) : ∃ o, lookupD l h = some o := by
  rw [List.mem_map] at hm
  obtain ⟨kv, hkv, hq⟩ := hm
  unfold lookupD
  cases hf : l.find? (fun kv => kv.1 = h) with
  | some kv' => exact ⟨kv'.2, rfl⟩
  | none =>
    have := List.find?_eq_none.mp hf kv hkv
    simp [hq] at this

theorem maxByTs_aux (l : List (ℚ × Int)) :
    ∀ b e, l.foldl maxStep (some b) = some e →
      (e = b ∨ e ∈ l) ∧ b.2 ≤ e.2 ∧ ∀ x ∈ l, x.2 ≤ e.2 := by
  induction l with
  | nil =>
    intro b e h
    rw [List.foldl_nil] at h
    obtain rfl := (Option.some.inj h).symm
    exact ⟨Or.inl rfl, le_refl _, by intro x hx; cases hx⟩
  | cons x xs ih =>
    intro b e h
    rw [List.foldl_cons] at h
    by_cases hbx : b.2 < x.2
    · rw [show maxStep (some b) x = some x by rw [maxStep, if_pos hbx]] at h
      obtain ⟨h1, h2, h3⟩ := ih x e h
      refine ⟨Or.inr ?_, by omega, ?_⟩
      · rcases h1 with rfl | h1
        · exact List.mem_cons_self _ _
        · exact List.mem_cons_of_mem _ h1
      · intro y hy
        rcases List.mem_cons.mp hy with rfl | hy
        · omega
        · exact h3 y hy
    · rw [show maxStep (some b) x = some b by rw [maxStep, if_neg hbx]] at h
      obtain ⟨h1, h2, h3⟩ := ih b e h
      refine ⟨?_, h2, ?_⟩
      · rcases h1 with rfl | h1
        · exact Or.inl rfl
        · exact Or.inr (List.mem_cons_of_mem _ h1)
      · intro y hy
        rcases List.mem_cons.mp hy with rfl | hy
        · omega
        · exact h3 y hy

theorem maxByTs_spec {l : List (ℚ × Int)} {e : ℚ × Int}
    (h : maxByTs l = some e) : e ∈ l ∧ ∀ x ∈ l, x.2 ≤ e.2 := by
  cases l with
  | nil => exact Option.noConfusion h
  | cons x xs =>
    rw [maxByTs, List.foldl_cons] at h
    have hx : maxStep none x = some x := rfl
    rw [hx] at h
    obtain ⟨h1, h2, h3⟩ := maxByTs_aux xs x e h
    refine ⟨?_, ?_⟩
    · rcases h1 with rfl | h1
      · exact List.mem_cons_self _ _
      · exact List.mem_cons_of_mem _ h1
    · intro y hy
      rcases List.mem_cons.mp hy with rfl | hy
      · exact h2
      · exact h3 y hy

/-- The spec's example quotes: sportsbook "X" quoting Over at handicap 2.5
and Under at handicap 2.5, the under quote slightly later. -/
def overQ : OddQuote := ⟨1, "X", "Skater", "Over", 5/2, 100⟩

def underQ : OddQuote := ⟨1, "X", "Skater", "Under", 5/2, 101⟩

/-- **C7** (confirmed).  Per-sportsbook selection on the reduced buckets:
(1) when the over and under sides share a handicap, the result is exactly
the over quote and the under quote at one common handicap; (2) when they
share none, the result consists of both sides' quotes (where present) at
the handicap of maximal timestamp across both sides; (3) end to end, with
sportsbook "X" quoting only Over at 2.5 and Under at 2.5, exactly those two
quotes are returned. -/
theorem near_even_line_selection :
    (∀ (ov un : List (ℚ × OddQuote)) (h : ℚ),
      h ∈ ov.map (·.1) → h ∈ un.map (·.1) →
      ∃ h' o u, h' ∈ ov.map (·.1) ∧ h' ∈ un.map (·.1) ∧
        lookupD ov h' = some o ∧ lookupD un h' = some u ∧
        processBook ov un = [o, u]) ∧
    (∀ (ov un : List (ℚ × OddQuote)) (e : ℚ × Int),
      (ov.map (·.1)).filter (fun h => (un.map (·.1)).contains h) = [] →
      maxByTs (ov.map (fun kv => (kv.1, kv.2.timestamp)) ++
        un.map (fun kv => (kv.1, kv.2.timestamp))) = some e →
      (∀ q ∈ ov, q.2.timestamp ≤ e.2) ∧
      (∀ q ∈ un, q.2.timestamp ≤ e.2) ∧
      processBook ov un =
        (lookupD ov e.1).toList ++ (lookupD un e.1).toList) ∧
    filter_odds_closest_to_100 [("X", [overQ, underQ])] =
      some [overQ, underQ] := by
  refine ⟨?_, ?_, ?_⟩
  · intro ov un h hov hun
    have hmatch : h ∈ (ov.map (·.1)).filter
        (fun x => (un.map (·.1)).contains x) := by
      rw [List.mem_filter]
      exact ⟨hov, by simpa using hun⟩
    rcases hq : (ov.map (·.1)).filter
        (fun x => (un.map (·.1)).contains x) with _ | ⟨h0, t⟩
    · rw [hq] at hmatch
      exact absurd hmatch (List.not_mem_nil h)
    · have hh0 : h0 ∈ (ov.map (·.1)).filter
          (fun x => (un.map (·.1)).contains x) := by
        rw [hq]; exact List.mem_cons_self _ _
      rw [List.mem_filter] at hh0
      obtain ⟨h0ov, h0unb⟩ := hh0
      have h0un : h0 ∈ un.map (·.1) := by simpa using h0unb
      obtain ⟨o, ho⟩ := lookupD_mem h0ov
      obtain ⟨u, hu⟩ := lookupD_mem h0un
      refine ⟨h0, o, u, h0ov, h0un, ho, hu, ?_⟩
      unfold processBook
      rw [hq]
      simp [ho, hu]
  · intro ov un e hnone hmax
    obtain ⟨hmem, hall⟩ := maxByTs_spec hmax
    refine ⟨?_, ?_, ?_⟩
    · intro q hq
      exact hall (q.1, q.2.timestamp)
        (List.mem_append_left _ (List.mem_map_of_mem _ hq))
    · intro q hq
      exact hall (q.1, q.2.timestamp)
        (List.mem_append_right _ (List.mem_map_of_mem _ hq))
    · unfold processBook
      rw [hnone, hmax]
  · norm_num [filter_odds_closest_to_100, most_recent_odds, sportsbooks,
      buildSides, processBook, insertMostRecent, dictSet, lookupD, maxByTs,
      oddKey, overQ, underQ,
      show pyLower "Over" = "over" from rfl,
      show pyLower "Under" = "under" from rfl,
      show ("Over" : String) ≠ "Under" by decide,
      show ("under" : String) ≠ "over" by decide]

/-- Witness for `near_even_line_selection`: the two selection branches
instantiated on concrete one-entry buckets. -/
theorem near_even_line_selection_witness :
    (∃ h' o u, h' ∈ ([(5/2, overQ)] : List (ℚ × OddQuote)).map (·.1) ∧
      h' ∈ ([(5/2, underQ)] : List (ℚ × OddQuote)).map (·.1) ∧
      lookupD [(5/2, overQ)] h' = some o ∧
      lookupD [(5/2, underQ)] h' = some u ∧
      processBook [(5/2, overQ)] [(5/2, underQ)] = [o, u]) ∧
    (processBook [(5/2, overQ)] [(7/2, underQ)] =
      (lookupD [(5/2, overQ)] (7/2)).toList ++
        (lookupD [(7/2, underQ)] (7/2)).toList) := by
  constructor
  · exact near_even_line_selection.1 [(5/2, overQ)] [(5/2, underQ)] (5/2)
      (by norm_num) (by norm_num)
  · have h := near_even_line_selection.2.1 [(5/2, overQ)] [(7/2, underQ)]
      (7/2, 101)
      (by norm_num [overQ, underQ])
      (by norm_num [maxByTs, maxStep, overQ, underQ])
    exact h.2.2

end AccurateShot
